import Mathlib

/-!
Verification of the resilient subprocess RPC client (`Backend/app/mcp_client.py`,
class `MCPClient`) of the R.A.M.A repository.

The embedding models:
  * JSON values (`Json`) and Python's `json.loads` (`json_loads`, a fuel-based
    recursive-descent parser over the line's characters; integer numerals only,
    which covers every numeral this protocol carries);
  * Python-level exceptions (`PyExn`) and fallible computation (`PyM` =
    `Except PyExn`), so that "the method raises" is an observable outcome;
  * Python dict/list/str primitives used by the client (`.get`, indexing,
    slicing, `join`, `len`, `str.title()`, `str.lower()`);
  * the client state (`MCPClient`: subprocess handle plus the ready flag) and
    the environment `Env` describing the behaviour of the OS and of the child
    process during one call (spawn outcome, write outcomes, the bytes each
    `readline` yields);
  * every method of the source class: `start`, `stop`, `_send_request`,
    `_read_response`, the seven capability methods and the six mock fallbacks.

Abstractions (each noted at its definition): Python's per-process-randomised
`hash()` and the rendering `str()` of container values are modelled by fixed
deterministic functions (no claim depends on their values), and the floating
point node coordinates of the mock interactive mindmap are modelled by integer
placeholders (no claim inspects coordinates).
-/

/-- JSON values as produced by Python's `json` module (integers only; the
protocol's numerals are all integers). -/
inductive Json where
  | null
  | bool (b : Bool)
  | num (n : Int)
  | str (s : String)
  | arr (elems : List Json)
  | obj (fields : List (String × Json))
deriving Repr

/-- Python truthiness of a decoded JSON value: `None`, `False`, `0`, `""`,
`[]` and the empty dict are falsy. -/
def truthy : Json → Bool
  | .null => false
  | .bool b => b
  | .num n => n != 0
  | .str s => s ≠ ""
  | .arr xs => !xs.isEmpty
  | .obj kvs => !kvs.isEmpty

/-- Pure lookup of a key in a JSON object (for theorem statements). -/
def jsonLookup (j : Json) (k : String) : Option Json :=
  match j with
  | .obj kvs => kvs.lookup k
  | _ => none

/-- Python exceptions that the modelled code can raise. -/
inductive PyExn where
  | runtimeError
  | attributeError
  | typeError
  | keyError
  | indexError
  | valueError
  | transportError
  | initFailed
deriving Repr, DecidableEq

/-- Fallible Python computation: `.ok` is a normal return, `.error` a raised
exception propagating to the caller. -/
abbrev PyM (α : Type) : Type := Except PyExn α

/-- Evaluate a fallible step over each list element in order — the shape of a
Python `for` loop or list comprehension whose body can raise. -/
def mapPyM {α β : Type} (f : α → PyM β) : List α → PyM (List β)
  | [] => .ok []
  | x :: xs => do
    let y ← f x
    let ys ← mapPyM f xs
    pure (y :: ys)

/-- Python `enumerate(xs, start)`. -/
def pyEnumerate {α : Type} (start : Nat) : List α → List (Nat × α)
  | [] => []
  | x :: xs => (start, x) :: pyEnumerate (start + 1) xs

/-- ASCII whitespace as recognised by the JSON grammar. -/
def isWs (c : Char) : Bool := c = ' ' || c = '\n' || c = '\t' || c = '\r'

/-- Drop leading whitespace. -/
def skipWs : List Char → List Char
  | [] => []
  | c :: cs => if isWs c then skipWs cs else c :: cs

/-- Drop trailing then leading whitespace; models Python `str.strip()`. -/
def pyStrip (s : String) : String :=
  String.mk (((skipWs s.data).reverse |> skipWs).reverse)

/-- JSON string escapes handled by the model parser. -/
def unescapeChar (c : Char) : Option Char :=
  if c = '"' then some '"'
  else if c = '\\' then some '\\'
  else if c = '/' then some '/'
  else if c = 'n' then some '\n'
  else if c = 't' then some '\t'
  else if c = 'r' then some '\r'
  else none

/-- Parse the body of a JSON string (after the opening quote), fuel-bounded. -/
def parseStrBody : Nat → List Char → Option (String × List Char)
  | 0, _ => none
  | _, [] => none
  | fuel + 1, c :: cs =>
    if c = '"' then some ("", cs)
    else if c = '\\' then
      match cs with
      | [] => none
      | e :: cs2 =>
        match unescapeChar e with
        | none => none
        | some ch =>
          match parseStrBody fuel cs2 with
          | none => none
          | some (s, rest) => some (String.mk (ch :: s.data), rest)
    else
      match parseStrBody fuel cs with
      | none => none
      | some (s, rest) => some (String.mk (c :: s.data), rest)

/-- Decimal digit value. -/
def digitVal (c : Char) : Option Nat :=
  if '0' ≤ c ∧ c ≤ '9' then some (c.toNat - '0'.toNat) else none

/-- Parse a run of decimal digits into a natural number. -/
def parseDigits : List Char → Nat → Option (Nat × List Char)
  | [], _ => none
  | c :: cs, acc =>
    match digitVal c with
    | none => none
    | some d => match parseDigits cs (acc * 10 + d) with
                | some r => some r
                | none => some (acc * 10 + d, cs)

/-- Match a literal keyword tail such as `ull` of `null`. -/
def strLit (lit : List Char) (cs : List Char) : Option (List Char) :=
  match lit, cs with
  | [], rest => some rest
  | l :: ls, c :: cs2 => if c = l then strLit ls cs2 else none
  | _ :: _, [] => none

mutual
/-- Parse one JSON value, fuel-bounded. -/
def parseVal : Nat → List Char → Option (Json × List Char)
  | 0, _ => none
  | fuel + 1, cs =>
    match skipWs cs with
    | [] => none
    | c :: cs2 =>
      if c = 'n' then
        match strLit "ull".data cs2 with
        | some rest => some (Json.null, rest)
        | none => none
      else if c = 't' then
        match strLit "rue".data cs2 with
        | some rest => some (Json.bool true, rest)
        | none => none
      else if c = 'f' then
        match strLit "alse".data cs2 with
        | some rest => some (Json.bool false, rest)
        | none => none
      else if c = '"' then
        match parseStrBody fuel cs2 with
        | some (s, rest) => some (Json.str s, rest)
        | none => none
      else if c = '-' then
        match parseDigits cs2 0 with
        | some (n, rest) => some (Json.num (-(n : Int)), rest)
        | none => none
      else if (digitVal c).isSome then
        match parseDigits (c :: cs2) 0 with
        | some (n, rest) => some (Json.num (n : Int), rest)
        | none => none
      else if c = '[' then
        match skipWs cs2 with
        | ']' :: rest => some (Json.arr [], rest)
        | cs3 => match parseItems fuel cs3 with
                 | some (xs, rest) => some (Json.arr xs, rest)
                 | none => none
      else if c = '\x7b' then
        match skipWs cs2 with
        | '\x7d' :: rest => some (Json.obj [], rest)
        | cs3 => match parseFields fuel cs3 with
                 | some (kvs, rest) => some (Json.obj kvs, rest)
                 | none => none
      else none

/-- Parse the comma-separated items of a non-empty JSON array. -/
def parseItems : Nat → List Char → Option (List Json × List Char)
  | 0, _ => none
  | fuel + 1, cs =>
    match parseVal fuel cs with
    | none => none
    | some (v, rest) =>
      match skipWs rest with
      | ',' :: rest2 =>
        match parseItems fuel rest2 with
        | some (vs, rest3) => some (v :: vs, rest3)
        | none => none
      | ']' :: rest2 => some ([v], rest2)
      | _ => none

/-- Parse the key/value pairs of a non-empty JSON object. -/
def parseFields : Nat → List Char → Option (List (String × Json) × List Char)
  | 0, _ => none
  | fuel + 1, cs =>
    match skipWs cs with
    | '"' :: cs2 =>
      match parseStrBody fuel cs2 with
      | none => none
      | some (k, rest) =>
        match skipWs rest with
        | ':' :: rest2 =>
          match parseVal fuel rest2 with
          | none => none
          | some (v, rest3) =>
            match skipWs rest3 with
            | ',' :: rest4 =>
              match parseFields fuel rest4 with
              | some (kvs, rest5) => some ((k, v) :: kvs, rest5)
              | none => none
            | '\x7d' :: rest4 => some ([(k, v)], rest4)
            | _ => none
        | _ => none
    | _ => none
end

/-- Model of Python `json.loads`: `none` means the call raises
`json.JSONDecodeError`. -/
def json_loads (s : String) : Option Json :=
  match parseVal (s.length + 1) s.data with
  | some (j, rest) => if skipWs rest = [] then some j else none
  | none => none

/-- Python `dict.get(k, default)`: the stored value, or `default` when the key
is missing; raises `AttributeError` when the receiver is not a dict. -/
def pyGetD (j : Json) (k : String) (d : Json) : PyM Json :=
  match j with
  | .obj kvs => .ok ((kvs.lookup k).getD d)
  | _ => .error .attributeError

/-- Python `dict.get(k)` (default `None`). -/
def pyGet (j : Json) (k : String) : PyM Json :=
  pyGetD j k .null

/-- Python `d[k]` on a dict: raises `KeyError` when missing, `TypeError` when
the receiver is not a dict. -/
def pyIndexS (j : Json) (k : String) : PyM Json :=
  match j with
  | .obj kvs =>
    match kvs.lookup k with
    | some v => .ok v
    | none => .error .keyError
  | _ => .error .typeError

/-- Python `l[n]` on a list: raises `IndexError` out of range, `TypeError` on a
non-sequence. -/
def pyIndexN (j : Json) (n : Nat) : PyM Json :=
  match j with
  | .arr xs =>
    match xs.get? n with
    | some v => .ok v
    | none => .error .indexError
  | _ => .error .typeError

/-- Python slicing `x[:n]` on lists and strings. -/
def pySliceTake (n : Nat) (j : Json) : PyM Json :=
  match j with
  | .arr xs => .ok (.arr (xs.take n))
  | .str s => .ok (.str (String.mk (s.data.take n)))
  | _ => .error .typeError

/-- Python `sep.join(it)`: over a list it raises `TypeError` on any non-string
element; over a string it joins the characters. -/
def pyJoin (sep : String) (j : Json) : PyM String :=
  match j with
  | .arr xs => do
    let strs ← mapPyM (fun x =>
      match x with
      | .str s => Except.ok s
      | _ => Except.error PyExn.typeError) xs
    .ok (String.intercalate sep strs)
  | .str s => .ok (String.intercalate sep (s.data.map (fun ch => String.mk [ch])))
  | _ => .error .typeError

/-- Python `len(x)` for lists, strings and dicts. -/
def pyLen (j : Json) : PyM Nat :=
  match j with
  | .arr xs => .ok xs.length
  | .str s => .ok s.data.length
  | .obj kvs => .ok kvs.length
  | _ => .error .typeError

/-- Python `str.lower()` (ASCII, which covers every claim input). -/
def pyLower (s : String) : String :=
  String.mk (s.data.map Char.toLower)

/-- One step of Python `str.title()`: uppercase an alphabetic character that
follows a non-alphabetic one, lowercase the rest. -/
def titleStep (prevAlpha : Bool) (c : Char) : Char :=
  if c.isAlpha then (if prevAlpha then c.toLower else c.toUpper) else c

/-- Python `str.title()` (ASCII): words start uppercased, the remaining cased
characters are lowercased. -/
def pyTitle (s : String) : String :=
  String.mk ((s.data.foldl
    (fun acc c => (acc.1 ++ [titleStep acc.2 c], c.isAlpha)) (([] : List Char), false)).1)

/-- Model of Python `hash(topicString)`: the real value is per-process
randomised; the mocks only feed `abs(hash(s)) % 10000` into a cosmetic id
string, so any fixed deterministic stand-in is faithful for every claim. -/
def pyHash (s : String) : Nat :=
  s.data.foldl (fun a c => (a * 31 + c.toNat) % 1000000007) 7

/-- Model of `abs(hash(str(papers))) % 10000` in the mock citations: Python's
`str()`/`hash()` of the papers list is process-randomised; the value only
feeds a cosmetic id string that no claim inspects. -/
def pyHashPapers (ps : List Json) : Nat :=
  (ps.length * 37 + 11) % 10000

/-- Rendering of a JSON value inside an f-string (`f"...{x}..."`), i.e. Python
`str(x)`, for the scalar values the mocks interpolate; container rendering is
abbreviated (the claims never inspect citation text built from containers). -/
def pyStrScalar : Json → String
  | .null => "None"
  | .bool true => "True"
  | .bool false => "False"
  | .num n => toString n
  | .str s => s
  | .arr _ => "[...]"
  | .obj _ => "\x7b...\x7d"

/-- Equality test Python applies between members of a `set` of scalars
(`True == 1`, `False == 0`). Container values are unhashable and are rejected
before any membership test, so scalars are the only inputs. -/
def scalarEq (a b : Json) : Bool :=
  match a, b with
  | .null, .null => true
  | .bool x, .bool y => x == y
  | .num x, .num y => x == y
  | .str x, .str y => x == y
  | .bool x, .num y => (if x then (1 : Int) else 0) == y
  | .num x, .bool y => x == (if y then (1 : Int) else 0)
  | _, _ => false

/-- Python `set.add`-style insertion preserving first-insertion order (set
iteration order is interpreter-randomised for strings; the claims never
depend on the order, only on membership and totality). Raises `TypeError` on
unhashable (container) elements, as `set.update` does. -/
def setInsert (acc : List Json) (x : Json) : PyM (List Json) :=
  match x with
  | .arr _ => .error .typeError
  | .obj _ => .error .typeError
  | _ => .ok (if acc.any (scalarEq x) then acc else acc ++ [x])

/-- Python `set.update(iterable)` over a list of scalars. -/
def setUpdate (acc : List Json) (xs : List Json) : PyM (List Json) :=
  match xs with
  | [] => .ok acc
  | x :: rest => do
    let acc2 ← setInsert acc x
    setUpdate acc2 rest

/-- Handle of a spawned child process. `asyncio.create_subprocess_exec` is
always called with `stdin`/`stdout`/`stderr` pipes, so a handle always carries
usable stream ends; only its identity matters to the model. -/
structure ProcHandle where
  pid : Nat
deriving Repr, DecidableEq

/-- State of the source class `MCPClient`: the subprocess handle
(`self.process`, `None` before any spawn) and the ready flag (the source's
boolean field set by a successful handshake; its name is shortened to
`inited` in this development). -/
structure MCPClient where
  process : Option ProcHandle
  inited : Bool
deriving Repr, DecidableEq

/-- The freshly constructed client (`MCPClient.__init__`). -/
def client0 : MCPClient := ⟨none, false⟩

/-- Outcome of one `stdout.readline()` call: an I/O fault, or a line of bytes
(the empty string modelling end-of-stream). -/
inductive ReadRes where
  | err
  | line (s : String)
deriving Repr, DecidableEq

/-- Behaviour of the OS and the child process during one client operation:
the spawn outcome (`none`: `create_subprocess_exec` raises), whether each of
the two possible writes succeeds, and what each of the two possible reads
yields (first the handshake exchange inside `start`, then the capability
call's own exchange). -/
structure Env where
  spawnRes : Option ProcHandle
  initWriteOk : Bool
  initRead : ReadRes
  callWriteOk : Bool
  callRead : ReadRes
deriving Repr, DecidableEq

/-- `MCPClient._send_request`: raises `RuntimeError` when no process (or no
stdin) is attached, raises a transport error when the write fails, and
otherwise writes the request line. The request's content travels to the child
process, whose behaviour the `Env` oracle already fixes. -/
def sendRequest (c : MCPClient) (writeOk : Bool) (_request : Json) : PyM Unit :=
  match c.process with
  | none => .error .runtimeError
  | some _ => if writeOk then .ok () else .error .transportError

/-- `MCPClient._read_response`: `None` without a process, and otherwise one
`readline` whose bytes are stripped and fed to `json.loads`; every internal
exception is caught and turned into `None`. -/
def readResponse (c : MCPClient) (r : ReadRes) : Option Json :=
  match c.process with
  | none => none
  | some _ =>
    match r with
    | .err => none
    | .line s => if s.data.isEmpty then none else json_loads (pyStrip s)

/-- The handshake request literal sent by `MCPClient.start` (id 1, method
`initialize`). -/
def initRequest : Json :=
  .obj [("jsonrpc", .str "2.0"), ("id", .num 1), ("method", .str "initialize"),
    ("params", .obj [
      ("protocolVersion", .str "2024-11-05"),
      ("capabilities", .obj [("resources", .obj []), ("tools", .obj [])]),
      ("clientInfo", .obj [("name", .str "rama-backend"), ("version", .str "0.1.0")])])]

/-- `MCPClient.start`: spawn the child, send the handshake, read one response
and set the ready flag when the response is truthy with a truthy `result`
field. The whole body sits in `try/except Exception`, whose handler only
resets the flag — so the second component, the exception the call propagates
to its caller, is always `none`. -/
def MCPClient.start (env : Env) (c : MCPClient) : MCPClient × Option PyExn :=
  match env.spawnRes with
  | none => ({ c with inited := false }, none)
  | some h =>
    let c2 : MCPClient := { c with process := some h }
    match sendRequest c2 env.initWriteOk initRequest with
    | .error _ => ({ c2 with inited := false }, none)
    | .ok _ =>
      match readResponse c2 env.initRead with
      | none => (c2, none)
      | some resp =>
        let guard : PyM Bool :=
          if truthy resp then do
            let res ← pyGet resp "result"
            pure (truthy res)
          else pure false
        match guard with
        | .ok true => ({ c2 with inited := true }, none)
        | .ok false => (c2, none)
        | .error _ => ({ c2 with inited := false }, none)

/-- `MCPClient.stop`: when a process is attached, terminate it and reset both
fields; otherwise do nothing. -/
def MCPClient.stop (c : MCPClient) : MCPClient :=
  match c.process with
  | some _ => ⟨none, false⟩
  | none => c

/-- The readiness prefix shared by `search_papers`, `generate_workspace` and
`create_mindmap`: `if not self.initialized: await self.start()`. -/
def ensureReady (env : Env) (c : MCPClient) : MCPClient :=
  if c.inited then c else (MCPClient.start env c).fst

/-- Whether `start` run in environment `env` establishes readiness (its
success depends only on the environment). -/
def startSucceeds (env : Env) : Bool :=
  ((MCPClient.start env client0).fst).inited

/-- The request literal of `search_papers` (hard-coded id 2). -/
def searchPapersRequest (query : String) (maxResults : Int) : Json :=
  .obj [("jsonrpc", .str "2.0"), ("id", .num 2), ("method", .str "tools/call"),
    ("params", .obj [("name", .str "search_papers"),
      ("arguments", .obj [("query", .str query), ("max_results", .num maxResults),
        ("sources", .arr [.str "arxiv", .str "scholar"])])])]

/-- The request literal of `generate_workspace` (hard-coded id 3). -/
def generateWorkspaceRequest (topic : String) : Json :=
  .obj [("jsonrpc", .str "2.0"), ("id", .num 3), ("method", .str "tools/call"),
    ("params", .obj [("name", .str "generate_workspace"),
      ("arguments", .obj [("topic", .str topic), ("include_tools", .bool true),
        ("include_files", .bool true)])])]

/-- The request literal of `create_mindmap` (hard-coded id 4). -/
def createMindmapRequest (topic : String) : Json :=
  .obj [("jsonrpc", .str "2.0"), ("id", .num 4), ("method", .str "tools/call"),
    ("params", .obj [("name", .str "create_mindmap"),
      ("arguments", .obj [("topic", .str topic), ("depth", .num 3),
        ("include_connections", .bool true)])])]

/-- The request literal of `generate_comprehensive_summaries` (hard-coded
id 4, the same integer `create_mindmap` uses). -/
def generateSummariesRequest (query : String) (papers : List Json) : Json :=
  .obj [("jsonrpc", .str "2.0"), ("id", .num 4), ("method", .str "tools/call"),
    ("params", .obj [("name", .str "generate_comprehensive_summaries"),
      ("arguments", .obj [("query", .str query), ("papers", .arr papers)])])]

/-- The request literal of `generate_ieee_citations` (hard-coded id 5). -/
def generateIeeeCitationsRequest (papers : List Json) : Json :=
  .obj [("jsonrpc", .str "2.0"), ("id", .num 5), ("method", .str "tools/call"),
    ("params", .obj [("name", .str "generate_ieee_citations"),
      ("arguments", .obj [("papers", .arr papers)])])]

/-- The request literal of `generate_sample_paper` (hard-coded id 6). -/
def generateSamplePaperRequest (query : String) (papers : List Json) : Json :=
  .obj [("jsonrpc", .str "2.0"), ("id", .num 6), ("method", .str "tools/call"),
    ("params", .obj [("name", .str "generate_sample_paper"),
      ("arguments", .obj [("query", .str query), ("papers", .arr papers)])])]

/-- The request literal of `create_interactive_mindmap` (hard-coded id 7). -/
def createInteractiveMindmapRequest (query : String) (papers : List Json) : Json :=
  .obj [("jsonrpc", .str "2.0"), ("id", .num 7), ("method", .str "tools/call"),
    ("params", .obj [("name", .str "create_interactive_mindmap"),
      ("arguments", .obj [("query", .str query), ("papers", .arr papers)])])]

/-- The `id` field carried by a request envelope. -/
def requestId (j : Json) : Option Json :=
  jsonLookup j "id"

/-- `MCPClient._get_mock_papers`: the canned single-entry fallback, templated
from the query by `str.title()` and `str.lower()`. -/
def mockPapers (query : String) : Json :=
  .obj [
    ("papers", .arr [
      .obj [
        ("id", .num 1),
        ("title", .str ("Advanced Research in " ++ pyTitle query)),
        ("authors", .arr [.str "Dr. Jane Smith", .str "Prof. John Doe"]),
        ("abstract", .str ("This paper explores the fundamental concepts and applications of "
          ++ query ++ " in modern research environments...")),
        ("year", .num 2024),
        ("journal", .str "Nature"),
        ("citations", .num 156),
        ("relevance_score", .num 95),
        ("keywords", .arr [.str (pyLower query), .str "research",
          .str "methodology", .str "analysis"])]]),
    ("total_found", .num 1),
    ("query", .str query),
    ("sources_used", .arr [.str "mock"])]

/-- `MCPClient._get_mock_workspace`. -/
def mockWorkspace (topic : String) : Json :=
  .obj [
    ("id", .str ("ws_" ++ toString (pyHash topic % 10000))),
    ("name", .str (pyTitle topic ++ " Research Workspace")),
    ("created_at", .str "2024-10-03T10:00:00Z"),
    ("tools", .arr [
      .obj [("name", .str "Literature Review"), ("status", .str "ready"), ("progress", .num 0)],
      .obj [("name", .str "Data Analysis"), ("status", .str "pending"), ("progress", .num 0)],
      .obj [("name", .str "Citation Manager"), ("status", .str "ready"), ("progress", .num 0)]]),
    ("files", .arr [
      .obj [("name", .str "Research_Plan.md"), ("type", .str "markdown"), ("size", .str "2.1 KB")],
      .obj [("name", .str "Bibliography.bib"), ("type", .str "bibtex"), ("size", .str "15.3 KB")],
      .obj [("name", .str "Data"), ("type", .str "folder"), ("size", .str "1.2 GB")]]),
    ("collaborators", .num 1),
    ("last_activity", .str "2024-10-03T10:00:00Z")]

/-- `MCPClient._get_mock_mindmap` (the later duplicate definition in the
source file is textually identical to the earlier one, so Python's
last-definition-wins rule changes nothing). -/
def mockMindmap (topic : String) : Json :=
  .obj [
    ("id", .str ("mm_" ++ toString (pyHash topic % 10000))),
    ("topic", .str topic),
    ("nodes", .arr [
      .obj [("id", .num 1), ("label", .str (pyTitle topic)), ("x", .num 400), ("y", .num 300), ("type", .str "central")],
      .obj [("id", .num 2), ("label", .str "Methodology"), ("x", .num 300), ("y", .num 200), ("type", .str "concept")],
      .obj [("id", .num 3), ("label", .str "Applications"), ("x", .num 500), ("y", .num 200), ("type", .str "concept")],
      .obj [("id", .num 4), ("label", .str "Future Work"), ("x", .num 300), ("y", .num 400), ("type", .str "concept")],
      .obj [("id", .num 5), ("label", .str "Related Research"), ("x", .num 500), ("y", .num 400), ("type", .str "concept")]]),
    ("connections", .arr [
      .obj [("from", .num 1), ("to", .num 2)],
      .obj [("from", .num 1), ("to", .num 3)],
      .obj [("from", .num 1), ("to", .num 4)],
      .obj [("from", .num 1), ("to", .num 5)]])]

/-- One document summary of `_get_mock_summaries`; `paper.get` raises when a
paper entry is not a dict. -/
def mockDocSummary (query : String) (paper : Json) : PyM Json := do
  let pid ← pyGetD paper "id" (.num 1)
  let title ← pyGetD paper "title" (.str "Sample Paper")
  let rel ← pyGetD paper "relevance_score" (.num 85)
  Except.ok (.obj [
    ("paper_id", pid),
    ("title", title),
    ("summary", .str ("This paper contributes to " ++ query
      ++ " by presenting novel approaches and methodologies...")),
    ("key_findings", .arr [.str "Novel methodology", .str "Improved results",
      .str "Significant implications"]),
    ("relevance", rel)])

/-- `MCPClient._get_mock_summaries`. -/
def mockSummaries (query : String) (papers : List Json) : PyM Json := do
  let docs ← mapPyM (mockDocSummary query) (papers.take 5)
  Except.ok (.obj [
    ("id", .str ("summaries_" ++ toString (pyHash query % 10000))),
    ("query", .str query),
    ("topic_overview", .str ("This comprehensive analysis of " ++ query
      ++ " reveals significant developments in the field. Current research demonstrates strong progress in both theoretical foundations and practical applications.")),
    ("key_themes", .arr [.str "Theoretical Foundations", .str "Methodological Advances",
      .str "Practical Applications", .str "Future Directions"]),
    ("document_summaries", .arr docs),
    ("research_gaps", .arr [.str "Limited longitudinal studies",
      .str "Need for larger sample sizes", .str "Cross-cultural validation required"]),
    ("created_at", .str "2024-10-03T10:00:00Z")])

/-- One IEEE citation entry of `_get_mock_citations` (1-based index `i`):
`", ".join` over the sliced author list raises `TypeError` as soon as an
author entry is not a string. -/
def mockCitationEntry (i : Nat) (paper : Json) : PyM Json := do
  let authors ← pyGetD paper "authors" (.arr [.str "J. Smith", .str "A. Johnson"])
  let sliced ← pySliceTake 3 authors
  let joined ← pyJoin ", " sliced
  let authorsForLen ← pyGetD paper "authors" (.arr [])
  let n ← pyLen authorsForLen
  let authorList := if 3 < n then joined ++ " et al." else joined
  let title ← pyGetD paper "title" (.str "Research Paper Title")
  let journal ← pyGetD paper "journal" (.str "IEEE Transactions")
  let year ← pyGetD paper "year" (.num 2024)
  let pid ← pyGet paper "id"
  let citation := "[" ++ toString i ++ "] " ++ authorList ++ ", \"" ++ pyStrScalar title
    ++ "\", " ++ pyStrScalar journal ++ ", vol. X, no. Y, pp. 1-10, "
    ++ pyStrScalar year ++ "."
  Except.ok (.obj [("number", .num (i : Int)), ("paper_id", pid),
    ("citation", .str citation), ("style", .str "IEEE")])

/-- `MCPClient._get_mock_citations`. -/
def mockCitations (papers : List Json) : PyM Json := do
  let entries ← mapPyM (fun p => mockCitationEntry p.1 p.2) (pyEnumerate 1 (papers.take 10))
  let cits ← mapPyM (fun e => pyIndexS e "citation") entries
  let bib ← pyJoin "\n" (.arr cits)
  Except.ok (.obj [
    ("id", .str ("citations_" ++ toString (pyHashPapers papers))),
    ("style", .str "IEEE"),
    ("total_citations", .num (entries.length : Int)),
    ("citations", .arr entries),
    ("bibliography", .str bib),
    ("created_at", .str "2024-10-03T10:00:00Z")])

/-- `MCPClient._get_mock_sample_paper`: a canned paper templated from the
query; its only use of `papers` is `len(papers)`, so it is total. -/
def mockSamplePaper (query : String) (papers : List Json) : Json :=
  .obj [
    ("id", .str ("paper_" ++ toString (pyHash query % 10000))),
    ("title", .str ("Advances in " ++ pyTitle query
      ++ ": A Comprehensive Review and Future Directions")),
    ("abstract", .str ("This paper presents a comprehensive analysis of current developments in "
      ++ query ++ ". Through systematic review of recent literature and methodological advances, we identify key trends and propose future research directions. Our analysis reveals significant progress in both theoretical understanding and practical applications.")),
    ("sections", .obj [
      ("introduction", .obj [
        ("title", .str "1. Introduction"),
        ("content", .str ("The field of " ++ query
          ++ " has experienced rapid growth in recent years, driven by technological advances and increased research interest. This paper aims to provide a comprehensive overview of current state-of-the-art approaches and identify promising directions for future research."))]),
      ("literature_review", .obj [
        ("title", .str "2. Literature Review"),
        ("content", .str ("Recent studies in " ++ query
          ++ " have demonstrated significant advances in both methodology and applications. This section reviews key contributions from leading researchers and identifies emerging trends in the field.")),
        ("subsections", .arr [
          .obj [("title", .str "2.1 Theoretical Foundations"),
            ("content", .str "Fundamental principles and theoretical frameworks...")],
          .obj [("title", .str "2.2 Methodological Approaches"),
            ("content", .str "Current methodologies and their comparative advantages...")],
          .obj [("title", .str "2.3 Applications and Case Studies"),
            ("content", .str "Real-world applications and validation studies...")]])]),
      ("methodology", .obj [
        ("title", .str "3. Methodology"),
        ("content", .str "This study employs a systematic review methodology to analyze current literature and identify key trends. Our approach includes comprehensive database searches, quality assessment, and thematic analysis of findings.")]),
      ("results", .obj [
        ("title", .str "4. Results and Discussion"),
        ("content", .str "Our analysis reveals several key findings regarding the current state and future directions of research in this field. The results demonstrate significant progress while highlighting areas requiring further investigation.")]),
      ("conclusion", .obj [
        ("title", .str "5. Conclusion"),
        ("content", .str ("This comprehensive review of " ++ query
          ++ " research demonstrates substantial progress in the field while identifying opportunities for future development. Key recommendations include enhanced methodological rigor, increased interdisciplinary collaboration, and focus on practical applications."))])]),
    ("references_count", .num (papers.length : Int)),
    ("word_count", .num 3500),
    ("created_at", .str "2024-10-03T10:00:00Z")]

/-- Placeholder for a concept-node x coordinate of the mock interactive
mindmap: the source computes floats from `3.14159`-based trigonometry-style
arithmetic; no claim inspects coordinates, so integers stand in. -/
def conceptX (i : Nat) : Int := 400 + (i : Int) * 45

/-- Placeholder for a concept-node y coordinate (same abstraction). -/
def conceptY (i : Nat) : Int := 300 + (i : Int) * 30

/-- Author-node x coordinate: `400 + 120 * (1 if i % 2 == 0 else -1)`. -/
def authorX (i : Nat) : Int := 400 + 120 * (if i % 2 = 0 then 1 else -1)

/-- Author-node y coordinate: `300 + 120 * (1 if i < 2 else -1)`. -/
def authorY (i : Nat) : Int := 300 + 120 * (if i < 2 then 1 else -1)

/-- The accumulation loop of `_get_mock_interactive_mindmap`: for each of the
first five papers, push `authors[:2]` into the author set and `keywords[:3]`
into the concept set; `set.update` raises on unhashable elements. -/
def gatherAuthorsConcepts (papers : List Json) (authors concepts : List Json) :
    PyM (List Json × List Json) :=
  match papers with
  | [] => .ok (authors, concepts)
  | p :: rest => do
    let aField ← pyGetD p "authors" (.arr [])
    let aSliced ← pySliceTake 2 aField
    let aList ← match aSliced with
      | .arr xs => Except.ok xs
      | .str s => Except.ok (s.data.map (fun ch => Json.str (String.mk [ch])))
      | _ => Except.error PyExn.typeError
    let authors2 ← setUpdate authors aList
    let kField ← pyGetD p "keywords" (.arr [])
    let kSliced ← pySliceTake 3 kField
    let kList ← match kSliced with
      | .arr xs => Except.ok xs
      | .str s => Except.ok (s.data.map (fun ch => Json.str (String.mk [ch])))
      | _ => Except.error PyExn.typeError
    let concepts2 ← setUpdate concepts kList
    gatherAuthorsConcepts rest authors2 concepts2

/-- One concept node: `concept.title()` raises `AttributeError` unless the
concept is a string. -/
def conceptNode (query : String) (nodeId i : Nat) (concept : Json) : PyM Json := do
  let label ← match concept with
    | .str s => Except.ok (pyTitle s)
    | _ => Except.error PyExn.attributeError
  Except.ok (.obj [
    ("id", .str ("concept_" ++ toString nodeId)),
    ("label", .str label),
    ("type", .str "concept"),
    ("x", .num (conceptX i)),
    ("y", .num (conceptY i)),
    ("description", .str ("Key concept related to " ++ query))])

/-- One author node (the raw author value becomes the label unchanged). -/
def authorNode (query : String) (nodeId i : Nat) (author : Json) : Json :=
  .obj [
    ("id", .str ("author_" ++ toString nodeId)),
    ("label", author),
    ("type", .str "author"),
    ("x", .num (authorX i)),
    ("y", .num (authorY i)),
    ("description", .str ("Researcher in " ++ query))]

/-- `MCPClient._get_mock_interactive_mindmap`. -/
def mockInteractiveMindmap (query : String) (papers : List Json) : PyM Json := do
  let seeds := [Json.str (pyLower query), Json.str "research",
    Json.str "methodology", Json.str "analysis"]
  let concepts0 ← setUpdate [] seeds
  let (authors, concepts) ← gatherAuthorsConcepts (papers.take 5) [] concepts0
  let centralNode : Json := .obj [("id", .str "central"), ("label", .str (pyTitle query)),
    ("type", .str "central"), ("x", .num 400), ("y", .num 300)]
  let conceptPicked := pyEnumerate 0 (concepts.take 6)
  let conceptNodes ← mapPyM (fun p => conceptNode query (p.1 + 1) p.1 p.2) conceptPicked
  let conceptConnections := conceptPicked.map (fun p =>
    Json.obj [("from", .str "central"), ("to", .str ("concept_" ++ toString (p.1 + 1))),
      ("type", .str "relates_to")])
  let base := conceptPicked.length
  let authorPicked := pyEnumerate 0 (authors.take 4)
  let authorNodes := authorPicked.map (fun p => authorNode query (base + p.1 + 1) p.1 p.2)
  let authorConnections := authorPicked.map (fun p =>
    Json.obj [("from", .str "central"), ("to", .str ("author_" ++ toString (base + p.1 + 1))),
      ("type", .str "authored_by")])
  Except.ok (.obj [
    ("id", .str ("mindmap_" ++ toString (pyHash query % 10000))),
    ("title", .str ("Interactive Mind Map: " ++ pyTitle query)),
    ("topic", .str query),
    ("nodes", .arr (centralNode :: (conceptNodes ++ authorNodes))),
    ("connections", .arr (conceptConnections ++ authorConnections)),
    ("node_types", .obj [
      ("central", .obj [("color", .str "#8B5CF6"), ("size", .str "large")]),
      ("concept", .obj [("color", .str "#06D6A0"), ("size", .str "medium")]),
      ("author", .obj [("color", .str "#F72585"), ("size", .str "medium")]),
      ("paper", .obj [("color", .str "#FFD60A"), ("size", .str "small")])]),
    ("interaction_features", .obj [
      ("zoom", .bool true), ("drag", .bool true), ("click_details", .bool true),
      ("search", .bool true), ("filter", .bool true)]),
    ("created_at", .str "2024-10-03T10:00:00Z")])

/-- The shared `try` body of `search_papers` / `generate_workspace` /
`create_mindmap`: send the request, read one response, and when it is truthy
with a truthy `result` whose `content[0]` has type `text`, parse
`content[0]["text"]` with `json.loads`. `.ok none` is the fall-through to the
mock after the `try`, `.error` the caught exception. No response-id check of
any kind appears in the source. -/
def liveCallParsed (c : MCPClient) (writeOk : Bool) (r : ReadRes) (request : Json) :
    PyM (Option Json) := do
  let _ ← sendRequest c writeOk request
  match readResponse c r with
  | none => pure none
  | some resp =>
    if truthy resp then do
      let res ← pyGet resp "result"
      if truthy res then do
        let content ← pyGetD res "content" (.arr [])
        if truthy content then do
          let c0 ← pyIndexN content 0
          let ty ← pyGet c0 "type"
          let isText : Bool := match ty with
            | .str s => s == "text"
            | _ => false
          if isText then do
            let txt ← pyIndexS c0 "text"
            match txt with
            | .str s =>
              match json_loads s with
              | some v => pure (some v)
              | none => Except.error PyExn.valueError
            | _ => Except.error PyExn.typeError
          else pure none
        else pure none
      else pure none
    else pure none

/-- The shared `try` body of the four paper-based capabilities: send, read,
and when the response is truthy with a truthy `result` return
`response["result"]["content"][0]["text"]` unchanged (no type check on
`content[0]` and no second `json.loads`). -/
def liveCallRaw (c : MCPClient) (writeOk : Bool) (r : ReadRes) (request : Json) :
    PyM (Option Json) := do
  let _ ← sendRequest c writeOk request
  match readResponse c r with
  | none => pure none
  | some resp =>
    if truthy resp then do
      let res ← pyGet resp "result"
      if truthy res then do
        let resIdx ← pyIndexS resp "result"
        let content ← pyIndexS resIdx "content"
        let c0 ← pyIndexN content 0
        let txt ← pyIndexS c0 "text"
        pure (some txt)
      else pure none
    else pure none

/-- `MCPClient.search_papers`: ensure readiness, fall back to the mock when
readiness cannot be established, and otherwise run the live exchange with
every failure funnelled to the mock. Result: the updated client state plus
the value the Python call returns (or the exception it raises). -/
def searchPapers (env : Env) (c : MCPClient) (query : String) (maxResults : Int) :
    MCPClient × PyM Json :=
  let c2 := ensureReady env c
  if !c2.inited then (c2, .ok (mockPapers query))
  else
    match liveCallParsed c2 env.callWriteOk env.callRead (searchPapersRequest query maxResults) with
    | .ok (some v) => (c2, .ok v)
    | _ => (c2, .ok (mockPapers query))

/-- `MCPClient.generate_workspace` (same structure as `search_papers`). -/
def generateWorkspace (env : Env) (c : MCPClient) (topic : String) :
    MCPClient × PyM Json :=
  let c2 := ensureReady env c
  if !c2.inited then (c2, .ok (mockWorkspace topic))
  else
    match liveCallParsed c2 env.callWriteOk env.callRead (generateWorkspaceRequest topic) with
    | .ok (some v) => (c2, .ok v)
    | _ => (c2, .ok (mockWorkspace topic))

/-- `MCPClient.create_mindmap` (same structure as `search_papers`). -/
def createMindmap (env : Env) (c : MCPClient) (topic : String) :
    MCPClient × PyM Json :=
  let c2 := ensureReady env c
  if !c2.inited then (c2, .ok (mockMindmap topic))
  else
    match liveCallParsed c2 env.callWriteOk env.callRead (createMindmapRequest topic) with
    | .ok (some v) => (c2, .ok v)
    | _ => (c2, .ok (mockMindmap topic))

/-- `MCPClient.generate_comprehensive_summaries`: NO readiness step — the
method goes straight into its `try` block, so with no process attached the
`RuntimeError` from `_send_request` is what routes it to the mock. The mock
call sits after the `try`, so an exception inside the mock propagates. -/
def generateComprehensiveSummaries (env : Env) (c : MCPClient) (query : String)
    (papers : List Json) : MCPClient × PyM Json :=
  match liveCallRaw c env.callWriteOk env.callRead (generateSummariesRequest query papers) with
  | .ok (some v) => (c, .ok v)
  | _ => (c, mockSummaries query papers)

/-- `MCPClient.generate_ieee_citations` (same no-readiness structure). -/
def generateIeeeCitations (env : Env) (c : MCPClient) (papers : List Json) :
    MCPClient × PyM Json :=
  match liveCallRaw c env.callWriteOk env.callRead (generateIeeeCitationsRequest papers) with
  | .ok (some v) => (c, .ok v)
  | _ => (c, mockCitations papers)

/-- `MCPClient.generate_sample_paper` (same no-readiness structure). -/
def generateSamplePaper (env : Env) (c : MCPClient) (query : String)
    (papers : List Json) : MCPClient × PyM Json :=
  match liveCallRaw c env.callWriteOk env.callRead (generateSamplePaperRequest query papers) with
  | .ok (some v) => (c, .ok v)
  | _ => (c, .ok (mockSamplePaper query papers))

/-- `MCPClient.create_interactive_mindmap` (same no-readiness structure). -/
def createInteractiveMindmap (env : Env) (c : MCPClient) (query : String)
    (papers : List Json) : MCPClient × PyM Json :=
  match liveCallRaw c env.callWriteOk env.callRead (createInteractiveMindmapRequest query papers) with
  | .ok (some v) => (c, .ok v)
  | _ => (c, mockInteractiveMindmap query papers)

/-- One public operation on the shared client, carrying the environment
behaviour it runs against. -/
inductive Op where
  | opStart (e : Env)
  | opStop
  | opSearch (e : Env) (q : String) (maxResults : Int)
  | opWorkspace (e : Env) (t : String)
  | opMindmap (e : Env) (t : String)
  | opSummaries (e : Env) (q : String) (ps : List Json)
  | opCitations (e : Env) (ps : List Json)
  | opSample (e : Env) (q : String) (ps : List Json)
  | opInteractive (e : Env) (q : String) (ps : List Json)

/-- The state reached after one operation. -/
def stepOp (c : MCPClient) : Op → MCPClient
  | .opStart e => (MCPClient.start e c).fst
  | .opStop => c.stop
  | .opSearch e q m => (searchPapers e c q m).fst
  | .opWorkspace e t => (generateWorkspace e c t).fst
  | .opMindmap e t => (createMindmap e c t).fst
  | .opSummaries e q ps => (generateComprehensiveSummaries e c q ps).fst
  | .opCitations e ps => (generateIeeeCitations e c ps).fst
  | .opSample e q ps => (generateSamplePaper e c q ps).fst
  | .opInteractive e q ps => (createInteractiveMindmap e c q ps).fst

/-- The state reached after a sequence of operations. -/
def runOps (c : MCPClient) : List Op → MCPClient
  | [] => c
  | op :: ops => runOps (stepOp c op) ops

/-- The structural invariant of the client: a set ready flag implies an
attached process handle. -/
def clientInv (c : MCPClient) : Bool :=
  !c.inited || c.process.isSome

/-- A transport action on the shared child-process stream pair, tagged with
the logical caller issuing it. -/
inductive WireAct where
  | wr (caller : Nat)
  | rd (caller : Nat)
deriving Repr, DecidableEq, BEq

/-- The transport actions of one live capability call: one request write
(`_send_request`, which suspends at `stdin.drain()`) followed by one response
read (`_read_response`, which suspends at `stdout.readline()`). The award of
the processor between the two actions is the scheduler's choice: the class
holds no lock — its only fields are the process handle and the ready flag. -/
def capCallActions (i : Nat) : List WireAct := [.wr i, .rd i]

/-- Interleavings of two cooperative tasks: every merge of the two action
sequences that preserves each task's own order is schedulable, because each
action sits behind an `await` suspension point and no mutual-exclusion
mechanism exists in the client. -/
inductive Interleaving : List WireAct → List WireAct → List WireAct → Prop
  | nil : Interleaving [] [] []
  | left {xs ys zs a} : Interleaving xs ys zs → Interleaving (a :: xs) ys (a :: zs)
  | right {xs ys zs b} : Interleaving xs ys zs → Interleaving xs (b :: ys) (b :: zs)

/-- The suffix of a trace after the first occurrence of `a`. -/
def afterFirst (a : WireAct) : List WireAct → List WireAct
  | [] => []
  | x :: xs => if x == a then xs else afterFirst a xs

/-- Whether the write of caller 1 lands between the write and the read of
caller 0 in the trace — the corruption the specification says a
mutual-exclusion mechanism prevents. -/
def writeInterleaved (tr : List WireAct) : Bool :=
  ((afterFirst (.wr 0) tr).takeWhile (fun x => x != .rd 0)).contains (.wr 1)

/-- Whether a JSON value is a string. -/
def isStr : Json → Bool
  | .str _ => true
  | _ => false

/-- Whether a paper dict's field `k` is either absent or a list of strings
(the shape every real paper record has). -/
def strListField (p : Json) (k : String) : Bool :=
  match p with
  | .obj kvs =>
    match kvs.lookup k with
    | none => true
    | some (.arr xs) => xs.all isStr
    | some _ => false
  | _ => false

/-- A well-formed paper record: a dict whose `authors` and `keywords` fields,
when present, are lists of strings. -/
def wfPaper (p : Json) : Bool :=
  strListField p "authors" && strListField p "keywords"

/-- A well-formed paper list. -/
def wfPapers (ps : List Json) : Bool :=
  ps.all wfPaper

/-- A successful handshake line: a truthy envelope with a truthy `result`. -/
def hsLine : String :=
  "\x7b\"jsonrpc\": \"2.0\", \"id\": 1, \"result\": \x7b\"serverInfo\": \x7b\"name\": \"rama\"\x7d\x7d\x7d"

/-- A well-formed success envelope for `search_papers` carrying the expected
request id 2; its `content[0].text` is the JSON-encoded empty paper list. -/
def searchOkLine : String :=
  "\x7b\"jsonrpc\": \"2.0\", \"id\": 2, \"result\": \x7b\"content\": [\x7b\"type\": \"text\", \"text\": \"\x7b\\\"papers\\\": []\x7d\"\x7d]\x7d\x7d"

/-- The same success envelope with the unrelated id 99. -/
def mismatchedIdLine : String :=
  "\x7b\"jsonrpc\": \"2.0\", \"id\": 99, \"result\": \x7b\"content\": [\x7b\"type\": \"text\", \"text\": \"\x7b\\\"papers\\\": []\x7d\"\x7d]\x7d\x7d"

/-- An environment in which everything works: the spawn succeeds, both writes
succeed, the handshake answer is well-formed and the capability answer is the
well-formed `search_papers` success envelope. -/
def envGood : Env :=
  ⟨some ⟨1⟩, true, .line hsLine, true, .line searchOkLine⟩

/-- An environment in which the provider is unavailable: the spawn raises and
nothing can be written or read. -/
def envDead : Env :=
  ⟨none, false, .err, false, .err⟩

/-- An environment whose capability answer carries the mismatched id 99. -/
def envMismatch : Env :=
  ⟨some ⟨1⟩, true, .line hsLine, true, .line mismatchedIdLine⟩

/-- A client that has completed a successful handshake. -/
def cReady : MCPClient := ⟨some ⟨1⟩, true⟩

theorem pym_bind_ok {α β : Type} (a : α) (f : α → PyM β) : (Except.ok a >>= f) = f a := rfl

theorem pym_bind_error {α β : Type} (e : PyExn) (f : α → PyM β) :
    ((Except.error e : PyM α) >>= f) = Except.error e := rfl

/-- Claim C4 counterexample: the request envelopes of the two distinct
capability operations `create_mindmap` and `generate_comprehensive_summaries`
carry the same hard-coded id 4, so ids are neither locally unique nor
collision-free across concurrently pending distinct operations. -/
theorem c4_counterexample :
    requestId (createMindmapRequest "a") = some (.num 4) ∧
    requestId (generateSummariesRequest "a" []) = some (.num 4) ∧
    createMindmapRequest "a" ≠ generateSummariesRequest "a" [] :=
  ⟨rfl, rfl, by simp [createMindmapRequest, generateSummariesRequest]⟩

/-- Claim C4 (amended): every request id is a hard-coded per-method constant —
1 for the handshake, 2 for `search_papers`, 3 for `generate_workspace`, 4 for
both `create_mindmap` and `generate_comprehensive_summaries`, 5 for
`generate_ieee_citations`, 6 for `generate_sample_paper`, 7 for
`create_interactive_mindmap` — independent of the arguments and of how many
requests went before, so successive requests reuse ids instead of increasing. -/
theorem c4_fixed_ids : ∀ (q t : String) (m : Int) (ps : List Json),
    requestId initRequest = some (.num 1) ∧
    requestId (searchPapersRequest q m) = some (.num 2) ∧
    requestId (generateWorkspaceRequest t) = some (.num 3) ∧
    requestId (createMindmapRequest t) = some (.num 4) ∧
    requestId (generateSummariesRequest q ps) = some (.num 4) ∧
    requestId (generateIeeeCitationsRequest ps) = some (.num 5) ∧
    requestId (generateSamplePaperRequest q ps) = some (.num 6) ∧
    requestId (createInteractiveMindmapRequest q ps) = some (.num 7) :=
  fun _ _ _ _ => ⟨rfl, rfl, rfl, rfl, rfl, rfl, rfl, rfl⟩

/-- Claim C8: with the provider unavailable (spawn fails), `search_papers`
for the query `quantum computing` returns the mock fallback, whose
`sources_used` equals `["mock"]` and whose single paper entry has the
title-cased query inside its title and the lowercased query among its
keywords. -/
theorem c8_quantum_fallback :
    (searchPapers envDead client0 "quantum computing" 10).snd =
      .ok (mockPapers "quantum computing") ∧
    jsonLookup (mockPapers "quantum computing") "sources_used" =
      some (.arr [.str "mock"]) ∧
    ∃ paper title pre post,
      jsonLookup (mockPapers "quantum computing") "papers" = some (.arr [paper]) ∧
      jsonLookup paper "title" = some (.str title) ∧
      title = pre ++ "Quantum Computing" ++ post ∧
      ∃ kws, jsonLookup paper "keywords" = some (.arr kws) ∧
        Json.str "quantum computing" ∈ kws :=
  ⟨rfl, rfl,
    ⟨_, "Advanced Research in Quantum Computing", "Advanced Research in ", "",
      rfl, rfl, rfl, ⟨_, rfl, .head _⟩⟩⟩

/-- Claim C2 (code bug): for one and the same well-formed success envelope
whose `result.content[0]` has type `text`, `search_papers` returns the text
parsed as JSON, but `generate_comprehensive_summaries` returns the raw text
string itself — not its JSON parse — even though its declared return type is
`Dict[str, Any]`. The four paper-based capabilities all share this code path. -/
theorem c2_raw_text_bug :
    (searchPapers envGood cReady "q" 10).snd = .ok (.obj [("papers", .arr [])]) ∧
    (generateComprehensiveSummaries envGood cReady "q" []).snd =
      .ok (.str "\x7b\"papers\": []\x7d") ∧
    (generateIeeeCitations envGood cReady []).snd = .ok (.str "\x7b\"papers\": []\x7d") ∧
    (generateSamplePaper envGood cReady "q" []).snd = .ok (.str "\x7b\"papers\": []\x7d") ∧
    (createInteractiveMindmap envGood cReady "q" []).snd =
      .ok (.str "\x7b\"papers\": []\x7d") ∧
    json_loads "\x7b\"papers\": []\x7d" = some (.obj [("papers", .arr [])]) ∧
    Json.str "\x7b\"papers\": []\x7d" ≠ Json.obj [("papers", .arr [])] :=
  ⟨rfl, rfl, rfl, rfl, rfl, rfl, by simp⟩

/-- Claim C3 counterexample: the request written by `search_papers` carries
id 2, the response line read back carries id 99, yet the client accepts the
response and returns its payload instead of falling back — no id check exists
on the read path. -/
theorem c3_counterexample :
    requestId (searchPapersRequest "x" 10) = some (.num 2) ∧
    (readResponse cReady (.line mismatchedIdLine)).bind (fun r => jsonLookup r "id") =
      some (.num 99) ∧
    (searchPapers envMismatch cReady "x" 10).snd = .ok (.obj [("papers", .arr [])]) ∧
    Json.obj [("papers", .arr [])] ≠ mockPapers "x" :=
  ⟨rfl, rfl, rfl, by simp [mockPapers]⟩

/-- Claim C3 (amended): the read path performs no id matching at all — any
well-formed success envelope is accepted whatever id it carries (shown by the
mismatched-id acceptance below), while a line that is not valid JSON still
resolves to the fallback result rather than raising or hanging. -/
theorem c3_no_id_check :
    (∀ (s q : String) (m : Int), json_loads (pyStrip s) = none →
      (searchPapers ⟨some ⟨1⟩, true, .err, true, .line s⟩ cReady q m).snd =
        .ok (mockPapers q)) ∧
    (searchPapers envMismatch cReady "x" 10).snd = .ok (.obj [("papers", .arr [])]) := by
  constructor
  · intro s q m h
    have hr : readResponse cReady (.line s) = none := by
      show (if s.data.isEmpty then none else json_loads (pyStrip s)) = none
      rw [h, ite_self]
    have hl : liveCallParsed cReady true (.line s) (searchPapersRequest q m) = .ok none := by
      unfold liveCallParsed
      rw [show sendRequest cReady true (searchPapersRequest q m) = .ok () from rfl,
        pym_bind_ok, hr]
      exact rfl
    show (match liveCallParsed cReady true (.line s) (searchPapersRequest q m) with
      | .ok (some v) => (cReady, Except.ok v)
      | _ => (cReady, Except.ok (mockPapers q))).snd = Except.ok (mockPapers q)
    rw [hl]
  · rfl

/-- Witness for C3: the concrete unparseable line `not json` resolves to the
mock fallback. -/
theorem c3_witness :
    json_loads (pyStrip "not json") = none ∧
    (searchPapers ⟨some ⟨1⟩, true, .err, true, .line "not json"⟩ cReady "x" 10).snd =
      .ok (mockPapers "x") :=
  ⟨rfl, c3_no_id_check.1 "not json" "x" 10 rfl⟩

/-- Claim C9 counterexample: the claimed mutual exclusion does not hold — the
class installs no lock (its only state is the process handle and the ready
flag), and both transport actions sit behind `await` suspension points, so
the schedule that runs caller 1's write between caller 0's write and read is
admissible. -/
theorem c9_counterexample :
    ¬ (∀ tr, Interleaving (capCallActions 0) (capCallActions 1) tr →
        writeInterleaved tr = false) := by
  intro hcl
  have h := hcl [.wr 0, .wr 1, .rd 0, .rd 1] (.left (.right (.left (.right .nil))))
  exact absurd h (by decide)

/-- Claim C9 (amended): the client serializes nothing — among the admissible
interleavings of two concurrent capability calls there is one in which the
second caller's write lands between the first caller's write and its read, so
correlation of responses is only safe if the surrounding system itself
serializes calls. -/
theorem c9_no_mutex :
    ∃ tr, Interleaving (capCallActions 0) (capCallActions 1) tr ∧
      writeInterleaved tr = true :=
  ⟨[.wr 0, .wr 1, .rd 0, .rd 1], .left (.right (.left (.right .nil))), by decide⟩

theorem start_no_raise (env : Env) (c : MCPClient) : (MCPClient.start env c).snd = none := by
  unfold MCPClient.start
  split
  · rfl
  · dsimp only
    repeat' split
    all_goals rfl

theorem start_fst_inited (env : Env) (c : MCPClient) (h : c.inited = false) :
    (MCPClient.start env c).fst.inited = startSucceeds env := by
  unfold startSucceeds MCPClient.start
  cases env.spawnRes with
  | none => simp [client0, h]
  | some hd =>
    dsimp only [sendRequest, readResponse, client0]
    repeat' split
    all_goals simp_all

theorem searchPapers_fst (env : Env) (c : MCPClient) (q : String) (m : Int) :
    (searchPapers env c q m).fst = ensureReady env c := by
  unfold searchPapers
  dsimp only
  repeat' split
  all_goals rfl

theorem stop_of_some (c : MCPClient) (h : c.process.isSome = true) :
    MCPClient.stop c = ⟨none, false⟩ := by
  cases hp : c.process with
  | none => rw [hp] at h; simp at h
  | some x => simp [MCPClient.stop, hp]

/-- Claim C7 counterexample: when the spawn fails, `start` leaves the ready
flag unset but returns normally — the propagated exception is `none`, not an
`InitializationFailed`; the `try/except` swallows every failure. -/
theorem c7_counterexample :
    (MCPClient.start envDead client0).fst.inited = false ∧
    (MCPClient.start envDead client0).snd = none := ⟨rfl, rfl⟩

/-- Claim C7 (amended): a failed initialization attempt leaves the client in
the Failed state (ready flag false), but `start` raises nothing to its caller
in any environment — failure is signalled only through the flag, which the
capability methods re-check after calling `start`. -/
theorem c7_failed_start_silent :
    (∀ env c, (MCPClient.start env c).snd = none) ∧
    (∀ env c, c.inited = false → startSucceeds env = false →
      (MCPClient.start env c).fst.inited = false ∧ (MCPClient.start env c).snd = none) := by
  refine ⟨start_no_raise, fun env c h hf => ⟨?_, start_no_raise env c⟩⟩
  rw [start_fst_inited env c h, hf]

/-- Witness for C7: concrete failing environment `envDead`. -/
theorem c7_witness :
    (MCPClient.start envGood cReady).snd = none ∧
    startSucceeds envDead = false ∧
    ((MCPClient.start envDead client0).fst.inited = false ∧
      (MCPClient.start envDead client0).snd = none) :=
  ⟨c7_failed_start_silent.1 envGood cReady, rfl,
    c7_failed_start_silent.2 envDead client0 rfl rfl⟩

/-- Claim C6: (i) while the client is Ready the readiness prefix is a no-op —
the state (and in particular the process handle) is unchanged under every
environment, so no new process is spawned; (ii) a capability call from any
non-ready state (after a failed start) re-attempts a fresh spawn and reaches
Ready exactly when the environment lets `start` succeed; (iii) likewise after
a forced `stop()` — self-healing, not permanently poisoned. -/
theorem c6_idempotent_self_healing :
    (∀ env c, c.inited = true → ensureReady env c = c) ∧
    (∀ env c q m, c.inited = false →
      (searchPapers env c q m).fst.inited = startSucceeds env) ∧
    (∀ env c q m, c.process.isSome = true →
      (searchPapers env (MCPClient.stop c) q m).fst.inited = startSucceeds env) := by
  have h2 : ∀ env c q m, c.inited = false →
      (searchPapers env c q m).fst.inited = startSucceeds env := by
    intro env c q m h
    rw [searchPapers_fst]
    unfold ensureReady
    rw [h]
    simp [start_fst_inited env c h]
  refine ⟨fun env c h => ?_, h2, fun env c q m hp => ?_⟩
  · unfold ensureReady
    rw [h]
    rfl
  · rw [stop_of_some c hp]
    exact h2 env ⟨none, false⟩ q m rfl

/-- Witness for C6: the ready client is untouched, and after `stop` (or from
a fresh client) a call under `envGood` returns the client to Ready. -/
theorem c6_witness :
    ensureReady envDead cReady = cReady ∧
    (searchPapers envGood client0 "q" 10).fst.inited = startSucceeds envGood ∧
    (searchPapers envGood (MCPClient.stop cReady) "q" 10).fst.inited = startSucceeds envGood ∧
    startSucceeds envGood = true :=
  ⟨c6_idempotent_self_healing.1 envDead cReady rfl,
    c6_idempotent_self_healing.2.1 envGood client0 "q" 10 rfl,
    c6_idempotent_self_healing.2.2 envGood cReady "q" 10 rfl, rfl⟩

theorem generateWorkspace_fst (env : Env) (c : MCPClient) (t : String) :
    (generateWorkspace env c t).fst = ensureReady env c := by
  unfold generateWorkspace
  dsimp only
  repeat' split
  all_goals rfl

theorem createMindmap_fst (env : Env) (c : MCPClient) (t : String) :
    (createMindmap env c t).fst = ensureReady env c := by
  unfold createMindmap
  dsimp only
  repeat' split
  all_goals rfl

theorem summaries_fst (env : Env) (c : MCPClient) (q : String) (ps : List Json) :
    (generateComprehensiveSummaries env c q ps).fst = c := by
  unfold generateComprehensiveSummaries
  repeat' split
  all_goals rfl

theorem citations_fst (env : Env) (c : MCPClient) (ps : List Json) :
    (generateIeeeCitations env c ps).fst = c := by
  unfold generateIeeeCitations
  repeat' split
  all_goals rfl

theorem sample_fst (env : Env) (c : MCPClient) (q : String) (ps : List Json) :
    (generateSamplePaper env c q ps).fst = c := by
  unfold generateSamplePaper
  repeat' split
  all_goals rfl

theorem interactive_fst (env : Env) (c : MCPClient) (q : String) (ps : List Json) :
    (createInteractiveMindmap env c q ps).fst = c := by
  unfold createInteractiveMindmap
  repeat' split
  all_goals rfl

theorem liveCallRaw_noProcess (c : MCPClient) (w : Bool) (r : ReadRes) (req : Json)
    (hp : c.process = none) : liveCallRaw c w r req = .error .runtimeError := by
  unfold liveCallRaw sendRequest
  rw [hp]
  exact rfl

theorem searchPapers_snd_notReady (env : Env) (c : MCPClient) (q : String) (m : Int)
    (h : (ensureReady env c).inited = false) :
    (searchPapers env c q m).snd = .ok (mockPapers q) := by
  unfold searchPapers
  dsimp only
  rw [h]
  exact rfl

theorem generateWorkspace_snd_notReady (env : Env) (c : MCPClient) (t : String)
    (h : (ensureReady env c).inited = false) :
    (generateWorkspace env c t).snd = .ok (mockWorkspace t) := by
  unfold generateWorkspace
  dsimp only
  rw [h]
  exact rfl

theorem createMindmap_snd_notReady (env : Env) (c : MCPClient) (t : String)
    (h : (ensureReady env c).inited = false) :
    (createMindmap env c t).snd = .ok (mockMindmap t) := by
  unfold createMindmap
  dsimp only
  rw [h]
  exact rfl

theorem summaries_snd_noProcess (env : Env) (c : MCPClient) (q : String) (ps : List Json)
    (hp : c.process = none) :
    (generateComprehensiveSummaries env c q ps).snd = mockSummaries q ps := by
  unfold generateComprehensiveSummaries
  rw [liveCallRaw_noProcess c env.callWriteOk env.callRead _ hp]

theorem citations_snd_noProcess (env : Env) (c : MCPClient) (ps : List Json)
    (hp : c.process = none) :
    (generateIeeeCitations env c ps).snd = mockCitations ps := by
  unfold generateIeeeCitations
  rw [liveCallRaw_noProcess c env.callWriteOk env.callRead _ hp]

theorem sample_snd_noProcess (env : Env) (c : MCPClient) (q : String) (ps : List Json)
    (hp : c.process = none) :
    (generateSamplePaper env c q ps).snd = .ok (mockSamplePaper q ps) := by
  unfold generateSamplePaper
  rw [liveCallRaw_noProcess c env.callWriteOk env.callRead _ hp]

theorem interactive_snd_noProcess (env : Env) (c : MCPClient) (q : String) (ps : List Json)
    (hp : c.process = none) :
    (createInteractiveMindmap env c q ps).snd = mockInteractiveMindmap q ps := by
  unfold createInteractiveMindmap
  rw [liveCallRaw_noProcess c env.callWriteOk env.callRead _ hp]

/-- Claim C5 counterexample: in an environment where readiness is achievable
(`start` would succeed), `generate_ieee_citations` called on the fresh,
non-ready client neither starts the process (the state is unchanged) nor
reaches the live path — it returns the fallback, because the method has no
readiness step at all. -/
theorem c5_counterexample :
    startSucceeds envGood = true ∧
    client0.inited = false ∧
    (generateIeeeCitations envGood client0 []).fst = client0 ∧
    (generateIeeeCitations envGood client0 []).snd = mockCitations [] :=
  ⟨rfl, rfl, rfl, rfl⟩

/-- Claim C5 (amended): only `search_papers`, `generate_workspace` and
`create_mindmap` begin with the readiness step (their state is exactly the
readiness prefix's result, and a failed readiness yields the mock without
propagating); the other four capabilities never attempt readiness — their
state is untouched and, with no process attached, the caught send error
routes them to their fallback. -/
theorem c5_readiness_asymmetry :
    (∀ env c q m, (searchPapers env c q m).fst = ensureReady env c ∧
      ((ensureReady env c).inited = false →
        (searchPapers env c q m).snd = .ok (mockPapers q))) ∧
    (∀ env c t, (generateWorkspace env c t).fst = ensureReady env c ∧
      ((ensureReady env c).inited = false →
        (generateWorkspace env c t).snd = .ok (mockWorkspace t))) ∧
    (∀ env c t, (createMindmap env c t).fst = ensureReady env c ∧
      ((ensureReady env c).inited = false →
        (createMindmap env c t).snd = .ok (mockMindmap t))) ∧
    (∀ env c q ps, (generateComprehensiveSummaries env c q ps).fst = c ∧
      (c.process = none →
        (generateComprehensiveSummaries env c q ps).snd = mockSummaries q ps)) ∧
    (∀ env c ps, (generateIeeeCitations env c ps).fst = c ∧
      (c.process = none → (generateIeeeCitations env c ps).snd = mockCitations ps)) ∧
    (∀ env c q ps, (generateSamplePaper env c q ps).fst = c ∧
      (c.process = none →
        (generateSamplePaper env c q ps).snd = .ok (mockSamplePaper q ps))) ∧
    (∀ env c q ps, (createInteractiveMindmap env c q ps).fst = c ∧
      (c.process = none →
        (createInteractiveMindmap env c q ps).snd = mockInteractiveMindmap q ps)) :=
  ⟨fun env c q m => ⟨searchPapers_fst env c q m, searchPapers_snd_notReady env c q m⟩,
   fun env c t => ⟨generateWorkspace_fst env c t, generateWorkspace_snd_notReady env c t⟩,
   fun env c t => ⟨createMindmap_fst env c t, createMindmap_snd_notReady env c t⟩,
   fun env c q ps => ⟨summaries_fst env c q ps, summaries_snd_noProcess env c q ps⟩,
   fun env c ps => ⟨citations_fst env c ps, citations_snd_noProcess env c ps⟩,
   fun env c q ps => ⟨sample_fst env c q ps, sample_snd_noProcess env c q ps⟩,
   fun env c q ps => ⟨interactive_fst env c q ps, interactive_snd_noProcess env c q ps⟩⟩

/-- Witness for C5: concrete dead environment and fresh client. -/
theorem c5_witness :
    (ensureReady envDead client0).inited = false ∧
    (searchPapers envDead client0 "q" 10).snd = .ok (mockPapers "q") ∧
    client0.process = none ∧
    (generateIeeeCitations envDead client0 []).snd = mockCitations [] :=
  ⟨rfl, (c5_readiness_asymmetry.1 envDead client0 "q" 10).2 rfl, rfl,
    (c5_readiness_asymmetry.2.2.2.2.1 envDead client0 []).2 rfl⟩

theorem clientInv_start (env : Env) (c : MCPClient) (_h : clientInv c = true) :
    clientInv (MCPClient.start env c).fst = true := by
  unfold MCPClient.start
  split
  · simp_all [clientInv]
  · dsimp only
    repeat' split
    all_goals simp_all [clientInv]

theorem clientInv_stop (c : MCPClient) (h : clientInv c = true) :
    clientInv (MCPClient.stop c) = true := by
  unfold MCPClient.stop
  split
  all_goals simp_all [clientInv]

theorem clientInv_ensureReady (env : Env) (c : MCPClient) (h : clientInv c = true) :
    clientInv (ensureReady env c) = true := by
  unfold ensureReady
  split
  · exact h
  · exact clientInv_start env c h

theorem clientInv_step (c : MCPClient) (op : Op) (h : clientInv c = true) :
    clientInv (stepOp c op) = true := by
  cases op with
  | opStart e => exact clientInv_start e c h
  | opStop => exact clientInv_stop c h
  | opSearch e q m =>
    show clientInv (searchPapers e c q m).fst = true
    rw [searchPapers_fst]
    exact clientInv_ensureReady e c h
  | opWorkspace e t =>
    show clientInv (generateWorkspace e c t).fst = true
    rw [generateWorkspace_fst]
    exact clientInv_ensureReady e c h
  | opMindmap e t =>
    show clientInv (createMindmap e c t).fst = true
    rw [createMindmap_fst]
    exact clientInv_ensureReady e c h
  | opSummaries e q ps =>
    show clientInv (generateComprehensiveSummaries e c q ps).fst = true
    rw [summaries_fst]
    exact h
  | opCitations e ps =>
    show clientInv (generateIeeeCitations e c ps).fst = true
    rw [citations_fst]
    exact h
  | opSample e q ps =>
    show clientInv (generateSamplePaper e c q ps).fst = true
    rw [sample_fst]
    exact h
  | opInteractive e q ps =>
    show clientInv (createInteractiveMindmap e c q ps).fst = true
    rw [interactive_fst]
    exact h

theorem clientInv_runOps (ops : List Op) (c : MCPClient) (h : clientInv c = true) :
    clientInv (runOps c ops) = true := by
  induction ops generalizing c with
  | nil => exact h
  | cons op rest ih => exact ih _ (clientInv_step c op h)

/-- Claim C10: from the fresh client, every sequence of operations preserves
the invariant that a set ready flag implies an attached process handle; after
a `stop()` the state is always `process = None`, flag unset; and on any
reachable ready state `_send_request` cannot hit its no-process
`RuntimeError`. -/
theorem c10_process_flag_invariant : ∀ ops : List Op,
    clientInv (runOps client0 ops) = true ∧
    (MCPClient.stop (runOps client0 ops)).process = none ∧
    (MCPClient.stop (runOps client0 ops)).inited = false ∧
    (∀ w req, (runOps client0 ops).inited = true →
      sendRequest (runOps client0 ops) w req ≠ .error .runtimeError) := by
  intro ops
  have hinv : clientInv (runOps client0 ops) = true := clientInv_runOps ops client0 rfl
  refine ⟨hinv, ?_, ?_, ?_⟩
  · cases hp : (runOps client0 ops).process with
    | none =>
      unfold MCPClient.stop
      rw [hp]
      exact hp
    | some x =>
      rw [stop_of_some _ (by rw [hp]; rfl)]
  · cases hp : (runOps client0 ops).process with
    | none =>
      have hni : (runOps client0 ops).inited = false := by
        unfold clientInv at hinv
        rw [hp] at hinv
        simpa using hinv
      unfold MCPClient.stop
      rw [hp, hni]
    | some x =>
      rw [stop_of_some _ (by rw [hp]; rfl)]
  · intro w req hin
    cases hp : (runOps client0 ops).process with
    | none =>
      unfold clientInv at hinv
      rw [hp, hin] at hinv
      simp at hinv
    | some x =>
      unfold sendRequest
      rw [hp]
      dsimp only
      cases w <;> simp

/-- Witness for C10: the one-step trace that starts the process under
`envGood` reaches the ready state, where `_send_request` succeeds. -/
theorem c10_witness :
    clientInv (runOps client0 [Op.opStart envGood]) = true ∧
    (MCPClient.stop (runOps client0 [Op.opStart envGood])).process = none ∧
    (MCPClient.stop (runOps client0 [Op.opStart envGood])).inited = false ∧
    sendRequest (runOps client0 [Op.opStart envGood]) true initRequest ≠
      .error .runtimeError :=
  ⟨(c10_process_flag_invariant [Op.opStart envGood]).1,
   (c10_process_flag_invariant [Op.opStart envGood]).2.1,
   (c10_process_flag_invariant [Op.opStart envGood]).2.2.1,
   (c10_process_flag_invariant [Op.opStart envGood]).2.2.2 true initRequest rfl⟩

theorem wfPaper_obj {p : Json} (h : wfPaper p = true) : ∃ kvs, p = .obj kvs := by
  cases p
  case obj kvs => exact ⟨kvs, rfl⟩
  all_goals simp [wfPaper, strListField] at h

theorem wfPapers_mem {ps : List Json} (h : wfPapers ps = true) {p : Json} (hp : p ∈ ps) :
    wfPaper p = true :=
  List.all_eq_true.mp h p hp

theorem mapPyM_ok {α β : Type} (f : α → PyM β) (l : List α)
    (h : ∀ x ∈ l, ∃ y, f x = .ok y) : ∃ ys, mapPyM f l = .ok ys := by
  induction l with
  | nil => exact ⟨[], rfl⟩
  | cons x xs ih =>
    obtain ⟨y, hy⟩ := h x (List.mem_cons_self x xs)
    obtain ⟨ys, hys⟩ := ih (fun z hz => h z (List.mem_cons_of_mem x hz))
    refine ⟨y :: ys, ?_⟩
    unfold mapPyM
    rw [hy, pym_bind_ok, hys, pym_bind_ok]
    rfl

theorem mapPyM_ok_strong {α β : Type} (f : α → PyM β) (l : List α) (P : β → Prop)
    (h : ∀ x ∈ l, ∃ y, f x = .ok y ∧ P y) :
    ∃ ys, mapPyM f l = .ok ys ∧ ∀ y ∈ ys, P y := by
  induction l with
  | nil => exact ⟨[], rfl, by simp⟩
  | cons x xs ih =>
    obtain ⟨y, hy, hPy⟩ := h x (List.mem_cons_self x xs)
    obtain ⟨ys, hys, hPys⟩ := ih (fun z hz => h z (List.mem_cons_of_mem x hz))
    refine ⟨y :: ys, ?_, ?_⟩
    · unfold mapPyM
      rw [hy, pym_bind_ok, hys, pym_bind_ok]
      rfl
    · intro z hz
      rcases List.mem_cons.mp hz with rfl | hz2
      · exact hPy
      · exact hPys z hz2

theorem pyEnumerate_mem {α : Type} {l : List α} : ∀ {s : Nat} {pr : Nat × α},
    pr ∈ pyEnumerate s l → pr.2 ∈ l := by
  induction l with
  | nil => intro s pr h; simp [pyEnumerate] at h
  | cons x xs ih =>
    intro s pr h
    rcases List.mem_cons.mp h with rfl | h2
    · exact List.mem_cons_self _ _
    · exact List.mem_cons_of_mem _ (ih h2)

theorem pyJoin_ok (sep : String) (xs : List Json) (h : ∀ x ∈ xs, isStr x = true) :
    ∃ s, pyJoin sep (.arr xs) = .ok s := by
  obtain ⟨strs, hstrs⟩ := mapPyM_ok
    (fun x => match x with
      | Json.str s => Except.ok s
      | _ => Except.error PyExn.typeError) xs
    (fun x hx => by
      have := h x hx
      cases x
      case str s => exact ⟨s, rfl⟩
      all_goals simp [isStr] at this)
  have hres : pyJoin sep (.arr xs) = .ok (String.intercalate sep strs) := by
    unfold pyJoin
    dsimp only
    rw [hstrs, pym_bind_ok]
  exact ⟨_, hres⟩

theorem wf_field_arr {kvs : List (String × Json)} {k : String}
    (h : strListField (.obj kvs) k = true) (d : List Json)
    (hd : ∀ x ∈ d, isStr x = true) :
    ∃ xs, (kvs.lookup k).getD (.arr d) = .arr xs ∧ ∀ x ∈ xs, isStr x = true := by
  have h2 : (match kvs.lookup k with
      | none => true
      | some (Json.arr xs) => xs.all isStr
      | some _ => false) = true := h
  cases hl : kvs.lookup k with
  | none => exact ⟨d, rfl, hd⟩
  | some v =>
    rw [hl] at h2
    cases v
    case arr xs => exact ⟨xs, rfl, fun x hx => List.all_eq_true.mp h2 x hx⟩
    all_goals simp at h2

theorem mockDocSummary_ok (q : String) {p : Json} (h : wfPaper p = true) :
    ∃ j, mockDocSummary q p = .ok j := by
  obtain ⟨kvs, rfl⟩ := wfPaper_obj h
  exact ⟨_, rfl⟩

theorem mockSummaries_ok (q : String) {ps : List Json} (h : wfPapers ps = true) :
    ∃ j, mockSummaries q ps = .ok j := by
  obtain ⟨docs, hdocs⟩ := mapPyM_ok (mockDocSummary q) (ps.take 5)
    (fun p hp => mockDocSummary_ok q (wfPapers_mem h (List.take_subset _ _ hp)))
  have hres : ∃ j, mockSummaries q ps = .ok j := by
    unfold mockSummaries
    rw [hdocs, pym_bind_ok]
    exact ⟨_, rfl⟩
  exact hres

theorem mockCitationEntry_ok (i : Nat) {p : Json} (h : wfPaper p = true) :
    ∃ s pid, mockCitationEntry i p =
      .ok (.obj [("number", .num (i : Int)), ("paper_id", pid),
        ("citation", .str s), ("style", .str "IEEE")]) := by
  obtain ⟨kvs, rfl⟩ := wfPaper_obj h
  have h' : (strListField (.obj kvs) "authors" && strListField (.obj kvs) "keywords") = true := h
  simp only [Bool.and_eq_true] at h'
  obtain ⟨hA, _hK⟩ := h'
  obtain ⟨axs, hax, haxs⟩ := wf_field_arr hA [.str "J. Smith", .str "A. Johnson"]
    (by intro x hx; simp at hx; rcases hx with rfl | rfl <;> rfl)
  obtain ⟨axs2, hax2, _⟩ := wf_field_arr hA [] (by simp)
  obtain ⟨joined, hjoin⟩ := pyJoin_ok ", " (axs.take 3)
    (fun x hx => haxs x (List.take_subset _ _ hx))
  refine ⟨("[" ++ toString i ++ "] " ++
      (if 3 < axs2.length then joined ++ " et al." else joined) ++ ", \"" ++
      pyStrScalar ((kvs.lookup "title").getD (.str "Research Paper Title")) ++ "\", " ++
      pyStrScalar ((kvs.lookup "journal").getD (.str "IEEE Transactions")) ++
      ", vol. X, no. Y, pp. 1-10, " ++
      pyStrScalar ((kvs.lookup "year").getD (.num 2024)) ++ "."),
    (kvs.lookup "id").getD .null, ?_⟩
  unfold mockCitationEntry
  simp only [pyGetD, pyGet, pySliceTake, pyLen, pym_bind_ok, hax, hax2, hjoin]

theorem mockCitations_ok {ps : List Json} (h : wfPapers ps = true) :
    ∃ j, mockCitations ps = .ok j := by
  obtain ⟨entries, hent, hentP⟩ := mapPyM_ok_strong
    (fun pr => mockCitationEntry pr.1 pr.2) (pyEnumerate 1 (ps.take 10))
    (fun e => ∃ s, pyIndexS e "citation" = .ok (.str s))
    (fun pr hpr => by
      obtain ⟨s, pid, he⟩ := mockCitationEntry_ok pr.1
        (wfPapers_mem h (List.take_subset _ _ (pyEnumerate_mem hpr)))
      exact ⟨_, he, ⟨s, rfl⟩⟩)
  obtain ⟨cits, hcits, hcitsP⟩ := mapPyM_ok_strong
    (fun e => pyIndexS e "citation") entries (fun y => isStr y = true)
    (fun e he => by
      obtain ⟨s, hs⟩ := hentP e he
      exact ⟨.str s, hs, rfl⟩)
  obtain ⟨bib, hbib⟩ := pyJoin_ok "\n" cits hcitsP
  have hres : mockCitations ps = .ok (.obj [
      ("id", .str ("citations_" ++ toString (pyHashPapers ps))),
      ("style", .str "IEEE"),
      ("total_citations", .num (entries.length : Int)),
      ("citations", .arr entries),
      ("bibliography", .str bib),
      ("created_at", .str "2024-10-03T10:00:00Z")]) := by
    unfold mockCitations
    simp only [hent, hcits, hbib, pym_bind_ok]
  exact ⟨_, hres⟩

theorem setInsert_str {acc : List Json} {x : Json} (hx : isStr x = true)
    (hacc : ∀ y ∈ acc, isStr y = true) :
    ∃ acc2, setInsert acc x = .ok acc2 ∧ ∀ y ∈ acc2, isStr y = true := by
  cases x
  case str s =>
    have hins : setInsert acc (.str s) =
        .ok (if acc.any (scalarEq (.str s)) then acc else acc ++ [Json.str s]) := rfl
    refine ⟨_, hins, ?_⟩
    intro y hy
    by_cases hc : acc.any (scalarEq (Json.str s)) = true
    · rw [if_pos hc] at hy
      exact hacc y hy
    · rw [if_neg hc] at hy
      rcases List.mem_append.mp hy with h1 | h1
      · exact hacc y h1
      · simp at h1
        rw [h1]
        rfl
  all_goals simp [isStr] at hx

theorem setUpdate_str (xs : List Json) : ∀ acc : List Json,
    (∀ y ∈ acc, isStr y = true) → (∀ x ∈ xs, isStr x = true) →
    ∃ acc2, setUpdate acc xs = .ok acc2 ∧ ∀ y ∈ acc2, isStr y = true := by
  induction xs with
  | nil => exact fun acc hacc _ => ⟨acc, rfl, hacc⟩
  | cons x rest ih =>
    intro acc hacc hxs
    obtain ⟨acc1, h1, hP1⟩ := setInsert_str (hxs x (List.mem_cons_self _ _)) hacc
    obtain ⟨acc2, h2, hP2⟩ := ih acc1 hP1 (fun z hz => hxs z (List.mem_cons_of_mem _ hz))
    refine ⟨acc2, ?_, hP2⟩
    unfold setUpdate
    rw [h1, pym_bind_ok, h2]

theorem gather_ok (ps : List Json) : ∀ au co : List Json,
    (∀ y ∈ au, isStr y = true) → (∀ y ∈ co, isStr y = true) →
    (∀ p ∈ ps, wfPaper p = true) →
    ∃ au2 co2, gatherAuthorsConcepts ps au co = .ok (au2, co2) ∧
      (∀ y ∈ au2, isStr y = true) ∧ (∀ y ∈ co2, isStr y = true) := by
  induction ps with
  | nil => exact fun au co ha hc _ => ⟨au, co, rfl, ha, hc⟩
  | cons p rest ih =>
    intro au co ha hc hwf
    obtain ⟨kvs, rfl⟩ := wfPaper_obj (hwf p (List.mem_cons_self _ _))
    have h' : (strListField (.obj kvs) "authors" && strListField (.obj kvs) "keywords") = true :=
      hwf _ (List.mem_cons_self _ _)
    simp only [Bool.and_eq_true] at h'
    obtain ⟨hA, hK⟩ := h'
    obtain ⟨axs, hax, haxs⟩ := wf_field_arr hA [] (by simp)
    obtain ⟨kxs, hkx, hkxs⟩ := wf_field_arr hK [] (by simp)
    obtain ⟨au1, hau1, hauP⟩ := setUpdate_str (axs.take 2) au ha
      (fun x hx => haxs x (List.take_subset _ _ hx))
    obtain ⟨co1, hco1, hcoP⟩ := setUpdate_str (kxs.take 3) co hc
      (fun x hx => hkxs x (List.take_subset _ _ hx))
    obtain ⟨au2, co2, hrec, hP1, hP2⟩ := ih au1 co1 hauP hcoP
      (fun z hz => hwf z (List.mem_cons_of_mem _ hz))
    refine ⟨au2, co2, ?_, hP1, hP2⟩
    unfold gatherAuthorsConcepts
    simp only [pyGetD, pySliceTake, pym_bind_ok, hax, hkx, hau1, hco1, hrec]

theorem conceptNode_ok (q : String) (nid i : Nat) {c : Json} (hc : isStr c = true) :
    ∃ j, conceptNode q nid i c = .ok j := by
  cases c
  case str s => exact ⟨_, rfl⟩
  all_goals simp [isStr] at hc

theorem mockInteractiveMindmap_ok (q : String) {ps : List Json} (h : wfPapers ps = true) :
    ∃ j, mockInteractiveMindmap q ps = .ok j := by
  obtain ⟨co0, hco0, hco0P⟩ := setUpdate_str
    [Json.str (pyLower q), Json.str "research", Json.str "methodology", Json.str "analysis"]
    [] (by simp)
    (by intro x hx; simp at hx; rcases hx with rfl | rfl | rfl | rfl <;> rfl)
  obtain ⟨au, co, hg, hauP, hcoP⟩ := gather_ok (ps.take 5) [] co0 (by simp) hco0P
    (fun p hp => wfPapers_mem h (List.take_subset _ _ hp))
  obtain ⟨cns, hcns⟩ := mapPyM_ok
    (fun pr => conceptNode q (pr.1 + 1) pr.1 pr.2) (pyEnumerate 0 (co.take 6))
    (fun pr hpr => conceptNode_ok q (pr.1 + 1) pr.1
      (hcoP pr.2 (List.take_subset _ _ (pyEnumerate_mem hpr))))
  have hres : ∃ j, mockInteractiveMindmap q ps = .ok j := by
    unfold mockInteractiveMindmap
    simp only [hco0, hg, hcns, pym_bind_ok]
    exact ⟨_, rfl⟩
  exact hres

/-- The outcome shape the façade guarantees: the call returns normally with a
value that is either the payload extracted from the live exchange or the
fallback result. -/
def liveOrMock (r : MCPClient × PyM Json) (live : PyM (Option Json)) (mock : PyM Json) : Prop :=
  ∃ j, r.snd = Except.ok j ∧ (live = Except.ok (some j) ∨ mock = Except.ok j)

theorem searchPapers_liveOrMock (env : Env) (c : MCPClient) (q : String) (m : Int) :
    liveOrMock (searchPapers env c q m)
      (liveCallParsed (ensureReady env c) env.callWriteOk env.callRead
        (searchPapersRequest q m))
      (.ok (mockPapers q)) := by
  unfold searchPapers liveOrMock
  dsimp only
  split
  · exact ⟨mockPapers q, rfl, Or.inr rfl⟩
  · split
    next v heq => exact ⟨v, rfl, Or.inl heq⟩
    next => exact ⟨mockPapers q, rfl, Or.inr rfl⟩

theorem generateWorkspace_liveOrMock (env : Env) (c : MCPClient) (t : String) :
    liveOrMock (generateWorkspace env c t)
      (liveCallParsed (ensureReady env c) env.callWriteOk env.callRead
        (generateWorkspaceRequest t))
      (.ok (mockWorkspace t)) := by
  unfold generateWorkspace liveOrMock
  dsimp only
  split
  · exact ⟨mockWorkspace t, rfl, Or.inr rfl⟩
  · split
    next v heq => exact ⟨v, rfl, Or.inl heq⟩
    next => exact ⟨mockWorkspace t, rfl, Or.inr rfl⟩

theorem createMindmap_liveOrMock (env : Env) (c : MCPClient) (t : String) :
    liveOrMock (createMindmap env c t)
      (liveCallParsed (ensureReady env c) env.callWriteOk env.callRead
        (createMindmapRequest t))
      (.ok (mockMindmap t)) := by
  unfold createMindmap liveOrMock
  dsimp only
  split
  · exact ⟨mockMindmap t, rfl, Or.inr rfl⟩
  · split
    next v heq => exact ⟨v, rfl, Or.inl heq⟩
    next => exact ⟨mockMindmap t, rfl, Or.inr rfl⟩

theorem summaries_liveOrMock (env : Env) (c : MCPClient) (q : String) {ps : List Json}
    (h : wfPapers ps = true) :
    liveOrMock (generateComprehensiveSummaries env c q ps)
      (liveCallRaw c env.callWriteOk env.callRead (generateSummariesRequest q ps))
      (mockSummaries q ps) := by
  obtain ⟨mj, hmj⟩ := mockSummaries_ok q h
  unfold generateComprehensiveSummaries liveOrMock
  split
  next v heq => exact ⟨v, rfl, Or.inl heq⟩
  next => exact ⟨mj, hmj, Or.inr hmj⟩

theorem citations_liveOrMock (env : Env) (c : MCPClient) {ps : List Json}
    (h : wfPapers ps = true) :
    liveOrMock (generateIeeeCitations env c ps)
      (liveCallRaw c env.callWriteOk env.callRead (generateIeeeCitationsRequest ps))
      (mockCitations ps) := by
  obtain ⟨mj, hmj⟩ := mockCitations_ok h
  unfold generateIeeeCitations liveOrMock
  split
  next v heq => exact ⟨v, rfl, Or.inl heq⟩
  next => exact ⟨mj, hmj, Or.inr hmj⟩

theorem sample_liveOrMock (env : Env) (c : MCPClient) (q : String) (ps : List Json) :
    liveOrMock (generateSamplePaper env c q ps)
      (liveCallRaw c env.callWriteOk env.callRead (generateSamplePaperRequest q ps))
      (.ok (mockSamplePaper q ps)) := by
  unfold generateSamplePaper liveOrMock
  split
  next v heq => exact ⟨v, rfl, Or.inl heq⟩
  next => exact ⟨mockSamplePaper q ps, rfl, Or.inr rfl⟩

theorem interactive_liveOrMock (env : Env) (c : MCPClient) (q : String) {ps : List Json}
    (h : wfPapers ps = true) :
    liveOrMock (createInteractiveMindmap env c q ps)
      (liveCallRaw c env.callWriteOk env.callRead (createInteractiveMindmapRequest q ps))
      (mockInteractiveMindmap q ps) := by
  obtain ⟨mj, hmj⟩ := mockInteractiveMindmap_ok q h
  unfold createInteractiveMindmap liveOrMock
  split
  next v heq => exact ⟨v, rfl, Or.inl heq⟩
  next => exact ⟨mj, hmj, Or.inr hmj⟩

/-- The totality statement of one full argument tuple: every capability call
returns normally with the live-extracted payload or its fallback. -/
def capabilityTotality (env : Env) (c : MCPClient) (q t : String) (m : Int)
    (ps : List Json) : Prop :=
  liveOrMock (searchPapers env c q m)
    (liveCallParsed (ensureReady env c) env.callWriteOk env.callRead
      (searchPapersRequest q m)) (.ok (mockPapers q)) ∧
  liveOrMock (generateWorkspace env c t)
    (liveCallParsed (ensureReady env c) env.callWriteOk env.callRead
      (generateWorkspaceRequest t)) (.ok (mockWorkspace t)) ∧
  liveOrMock (createMindmap env c t)
    (liveCallParsed (ensureReady env c) env.callWriteOk env.callRead
      (createMindmapRequest t)) (.ok (mockMindmap t)) ∧
  liveOrMock (generateComprehensiveSummaries env c q ps)
    (liveCallRaw c env.callWriteOk env.callRead (generateSummariesRequest q ps))
    (mockSummaries q ps) ∧
  liveOrMock (generateIeeeCitations env c ps)
    (liveCallRaw c env.callWriteOk env.callRead (generateIeeeCitationsRequest ps))
    (mockCitations ps) ∧
  liveOrMock (generateSamplePaper env c q ps)
    (liveCallRaw c env.callWriteOk env.callRead (generateSamplePaperRequest q ps))
    (.ok (mockSamplePaper q ps)) ∧
  liveOrMock (createInteractiveMindmap env c q ps)
    (liveCallRaw c env.callWriteOk env.callRead (createInteractiveMindmapRequest q ps))
    (mockInteractiveMindmap q ps)

/-- Claim C1 counterexample: the claim fails for an arbitrary "list of paper
dictionaries" — with the provider unavailable, `generate_ieee_citations` on a
paper whose `authors` list holds a non-string raises `TypeError` to the
caller (Python: `", ".join([1])` inside the fallback, which sits outside the
`try`). -/
theorem c1_counterexample :
    (generateIeeeCitations envDead client0
      [.obj [("authors", .arr [.num 1])]]).snd = .error .typeError := rfl

/-- Claim C1 (amended): for every environment, client state, query/topic
string and list of paper dicts whose `authors`/`keywords` fields (when
present) are lists of strings, each of the seven capability calls returns
normally — never an exception, never a decode error — and the value is
either the payload extracted from the live exchange or the corresponding
mock fallback. (For ill-typed paper entries the fallback itself can raise;
see the counterexample.) -/
theorem c1_total_or_mock : ∀ (env : Env) (c : MCPClient) (q t : String) (m : Int)
    (ps : List Json), wfPapers ps = true → capabilityTotality env c q t m ps :=
  fun env c q t m ps h =>
    ⟨searchPapers_liveOrMock env c q m,
     generateWorkspace_liveOrMock env c t,
     createMindmap_liveOrMock env c t,
     summaries_liveOrMock env c q h,
     citations_liveOrMock env c h,
     sample_liveOrMock env c q ps,
     interactive_liveOrMock env c q h⟩

/-- Witness for C1: the dead environment, fresh client and empty paper list. -/
theorem c1_witness :
    wfPapers ([] : List Json) = true ∧
    capabilityTotality envDead client0 "q" "t" 10 [] :=
  ⟨rfl, c1_total_or_mock envDead client0 "q" "t" 10 [] rfl⟩
